import Mathlib

/-!
Shallow embedding of the AKIRA v5 conversational workflow engine
(src/v5/agent.py, src/v5/mod_agent.py, src/v5/app.py).

JSON dictionaries are modelled as Lean structures; keys that a source
call site reads with `dict.get(key, default)` and that are absent at
some construction sites are modelled as `Option` fields, with the
default applied at the reading site, mirroring the Python.
Python lists are Lean lists; SQLite rows of the `state` table are a
Lean list of `StateRow` in insertion order (the `version` column holds
the decimal string of a natural number at every write site, and every
read site applies `CAST(version AS INTEGER)`, so it is modelled as a
`Nat`).
-/

/-! ## Generic helpers for Python semantics -/

/-- Insertion into a list at a clamped index: `insertAt x n l` places `x`
before position `n`, appending at the end when `n ≥ l.length`.  This is
the non-negative-index case of Python `list.insert`. -/
def insertAt (x : α) : Nat → List α → List α
  | _, [] => [x]
  | 0, l => x :: l
  | n + 1, a :: l => a :: insertAt x n l

/-- Python `list.insert(i, x)` semantics for a possibly negative `i`:
a negative index counts from the end and clamps at 0; an index past the
end appends. -/
def pyInsert (l : List α) (i : Int) (x : α) : List α :=
  let j : Nat := if i < 0 then ((l.length : Int) + i).toNat else i.toNat
  insertAt x j l

/-- Contiguous run of integers `s, s+1, ..., s+n-1`, the value of
Python `list(range(s, s+n))`. -/
def intRange (s : Int) : Nat → List Int
  | 0 => []
  | n + 1 => s :: intRange (s + 1) n

/-- Contiguous run of naturals `s, s+1, ..., s+n-1`. -/
def natRange (s : Nat) : Nat → List Nat
  | 0 => []
  | n + 1 => s :: natRange (s + 1) n

/-- Python dict assignment `m[k] = v` on an insertion-ordered map:
overwrite in place when the key exists, append otherwise. -/
def dictInsert (m : List (String × String)) (k v : String) : List (String × String) :=
  if m.any (fun p => p.1 == k) then m.map (fun p => if p.1 == k then (k, v) else p)
  else m ++ [(k, v)]

/-- Python dict lookup `m.get(k)`: value of the first (unique) binding. -/
def dictLookup (m : List (String × String)) (k : String) : Option String :=
  match m with
  | [] => none
  | p :: rest => if p.1 == k then some p.2 else dictLookup rest k

/-- Python `"email" in s`: substring test, modelled on character lists. -/
def containsEmail (s : String) : Bool := decide ("email".toList <:+: s.toList)

/-- Python `s.replace(" ", "_")`; with a single-character pattern this
is a character map. -/
def underscoreSpaces (s : String) : String :=
  String.mk (s.toList.map (fun c => if c = ' ' then '_' else c))

/-- Python `s.lower()` on the ASCII role names of this code base. -/
def pyLower (s : String) : String := String.mk (s.toList.map Char.toLower)

/-- Python `s.strip()`: drop leading and trailing whitespace. -/
def pyStrip (s : String) : String :=
  String.mk (((s.toList.dropWhile Char.isWhitespace).reverse.dropWhile
    Char.isWhitespace).reverse)

/-! ## Data model (the JSON payloads of both pipelines) -/

/-- Approver record of an approval chain, as built by
`agent._analyze_request` and `mod_agent._modify_approval_chain`. -/
structure Approver where
  level : Int
  approver_role : String
  approver_type : String
  source : String
  conditions : List String
  rejection_behavior : String
  notification_rules : List String
  timeout_hours : Int
deriving Repr, DecidableEq

/-- Form field of `microsoft_forms.questions`.  The `validation` key is
written only for user-specified fields (`agent._generate_form_schema`),
hence an `Option`. -/
structure Question where
  id : String
  field_name : String
  type : String
  title : String
  required : Bool
  validation : Option String
  purpose : String
deriving Repr, DecidableEq

/-- Entry of `workflow_analysis.data_to_collect` as returned by the
enrichment call; `required`, `validation` and `purpose` are read with
`dict.get` defaults in `agent._generate_form_schema`. -/
structure DataField where
  field_name : String
  label : String
  type : String
  required : Option Bool := none
  validation : Option String := none
  purpose : Option String := none
deriving Repr, DecidableEq

/-- Notification rule dictionary. -/
structure Notification where
  trigger : String
  recipients : List String
  platform : String
  template : String
deriving Repr, DecidableEq

/-- Form settings block of `agent._generate_form_schema`. -/
structure FormSettings where
  one_response_per_user : Bool
  allow_anonymous : Bool
  confirmation_message : String
deriving Repr, DecidableEq

/-- Microsoft Forms schema. -/
structure FormSchema where
  title : String
  description : String
  platform : String
  settings : FormSettings
  questions : List Question
deriving Repr, DecidableEq

/-- Excel tracker column; `choices` is present only on choice columns
and empty otherwise. -/
structure ExcelColumn where
  name : String
  type : String
  choices : List String := []
deriving Repr, DecidableEq

/-- Excel tracking schema. -/
structure ExcelSchema where
  table_name : String
  platform : String
  location : String
  columns : List ExcelColumn
deriving Repr, DecidableEq

/-- Power Automate step; `level` is written only on approval steps. -/
structure Step where
  step_number : Nat
  name : String
  type : String
  connector : String
  level : Option Int := none
deriving Repr, DecidableEq

/-- Power Automate trigger block. -/
structure TriggerSpec where
  type : String
  operation : String
  form_name : String
deriving Repr, DecidableEq

/-- Power Automate workflow. -/
structure PAWorkflow where
  name : String
  description : String
  platform : String
  trigger : TriggerSpec
  steps : List Step
deriving Repr, DecidableEq

/-- Enriched workflow analysis as consumed by the deterministic schema
derivation stages (`workflow_name`, `workflow_description`,
`data_to_collect`, `business_rules`, `notifications`); the name and
description keys are read with `dict.get` defaults. -/
structure EnrichedAnalysis where
  workflow_name : Option String := none
  workflow_description : Option String := none
  data_to_collect : List DataField := []
  business_rules : List String := []
  notifications : List Notification := []
deriving Repr, DecidableEq

/-- Metadata block of the master JSON. -/
structure Metadata where
  workflow_name : String
  description : String
  version : String
  generated_with : String
  platform : String
deriving Repr, DecidableEq

/-- The `workflow_analysis` block stored inside the master JSON. -/
structure WorkflowAnalysisDoc where
  approval_chain : List Approver
  business_rules : List String
  notifications : List Notification
deriving Repr, DecidableEq

/-- Master specification document (`agent._generate_master_json`);
`user_requirements` holds the `questions_answered` answer map. -/
structure MasterJson where
  metadata : Metadata
  user_requirements : List (String × String)
  workflow_analysis : WorkflowAnalysisDoc
  microsoft_forms : FormSchema
  excel_tracker : ExcelSchema
  power_automate_workflow : PAWorkflow
deriving Repr, DecidableEq

/-- The `details` dictionary of a planned edit
(`mod_agent._create_modification_plan`); every key is optional and the
mutators read each with `dict.get`. -/
structure EditDetails where
  level : Option Int := none
  role : Option String := none
  rejection_behavior : Option String := none
  timeout_hours : Option Int := none
  field_name : Option String := none
  type : Option String := none
  title : Option String := none
  required : Option Bool := none
  purpose : Option String := none
  name : Option String := none
  source : Option String := none
  position : Option Int := none
  step_number : Option Nat := none
  connector : Option String := none
  trigger : Option String := none
  recipients : Option (List String) := none
  platform : Option String := none
  template : Option String := none
deriving Repr, DecidableEq

/-! ## Deterministic schema derivation (agent.py) -/

/-- Python `role.replace(" ", "_").lower()`. -/
def roleFieldName (role : String) : String := pyLower (underscoreSpaces role)

/-- User-specified form questions, numbered from `idx`
(`enumerate(data_fields, 1)` in `agent._generate_form_schema`). -/
def user_questions_from : Nat → List DataField → List Question
  | _, [] => []
  | idx, f :: rest =>
    { id := "q" ++ toString idx, field_name := f.field_name, type := f.type,
      title := f.label, required := f.required.getD true,
      validation := some (f.validation.getD ""),
      purpose := f.purpose.getD "user_data" } :: user_questions_from (idx + 1) rest

/-- Two auto-appended identity/contact questions per approver, with ids
numbered from `n` (`question_num` in `agent._generate_form_schema`). -/
def approver_questions_from : Nat → List Approver → List Question
  | _, [] => []
  | n, a :: rest =>
    { id := "q" ++ toString n, field_name := roleFieldName a.approver_role ++ "_name",
      type := "text", title := a.approver_role ++ " Name", required := true,
      validation := none, purpose := "approver_identification" } ::
    { id := "q" ++ toString (n + 1), field_name := roleFieldName a.approver_role ++ "_email",
      type := "email", title := a.approver_role ++ " Email", required := true,
      validation := none, purpose := "approver_contact" } ::
    approver_questions_from (n + 2) rest

/-- Embedding of `agent._generate_form_schema`. -/
def generate_form_schema (analysis : EnrichedAnalysis) (approval_chain : List Approver) :
    FormSchema :=
  let userQs := user_questions_from 1 analysis.data_to_collect
  { title := analysis.workflow_name.getD "Workflow Form",
    description := analysis.workflow_description.getD "",
    platform := "Microsoft Forms",
    settings := { one_response_per_user := true, allow_anonymous := false,
                  confirmation_message := "Your request has been submitted successfully!" },
    questions := userQs ++ approver_questions_from (userQs.length + 1) approval_chain }

/-- Four tracking columns per approver (`agent._generate_excel_schema`). -/
def approver_tracking_columns : List Approver → List ExcelColumn
  | [] => []
  | a :: rest =>
    { name := underscoreSpaces a.approver_role ++ "_Status", type := "choice",
      choices := ["Pending", "Approved", "Rejected"] } ::
    { name := underscoreSpaces a.approver_role ++ "_Name", type := "text" } ::
    { name := underscoreSpaces a.approver_role ++ "_Timestamp", type := "datetime" } ::
    { name := underscoreSpaces a.approver_role ++ "_Comments", type := "text" } ::
    approver_tracking_columns rest

/-- Embedding of `agent._generate_excel_schema`. -/
def generate_excel_schema (analysis : EnrichedAnalysis) (approval_chain : List Approver)
    (form_schema : FormSchema) : ExcelSchema :=
  let columns : List ExcelColumn :=
    [ { name := "SubmissionID", type := "text" },
      { name := "SubmissionTimestamp", type := "datetime" },
      { name := "CurrentStatus", type := "choice",
        choices := ["Submitted", "Pending", "Approved", "Rejected"] } ]
    ++ ((form_schema.questions.filter (fun q =>
          !(q.purpose == "approver_identification" || q.purpose == "approver_contact"))).map
        (fun q => { name := q.field_name, type := "text" }))
    ++ approver_tracking_columns approval_chain
    ++ [ { name := "FinalDecision", type := "choice", choices := ["Approved", "Rejected"] },
         { name := "FinalDecisionDate", type := "datetime" } ]
  { table_name := underscoreSpaces (analysis.workflow_name.getD "") ++ "_Tracker",
    platform := "Excel Online (Business)",
    location := "SharePoint/Shared Documents",
    columns := columns }

/-- Per-approver approval/update step pair, numbered from `n`
(the `step_num` counter in `agent._generate_workflow`). -/
def approval_steps_from : Nat → List Approver → List Step
  | _, [] => []
  | n, a :: rest =>
    { step_number := n, name := "Approval - " ++ a.approver_role,
      type := "Teams - Start approval", connector := "Microsoft Teams Approvals",
      level := some a.level } ::
    { step_number := n + 1, name := "Update Excel - " ++ a.approver_role,
      type := "Excel Online - Update row", connector := "Excel Online (Business)" } ::
    approval_steps_from (n + 2) rest

/-- Embedding of `agent._generate_workflow`.  The fixed prologue uses
step numbers 1..3, the per-approver pairs continue from 4, and the
final notification gets the counter value reached after the loop,
`4 + 2 * length`.  The Excel schema is fetched by the source but unused
when building the steps. -/
def generate_workflow (analysis : EnrichedAnalysis) (form_schema : FormSchema)
    (excel_schema : ExcelSchema) (approval_chain : List Approver) : PAWorkflow :=
  { name := analysis.workflow_name.getD "",
    description := analysis.workflow_description.getD "",
    platform := "Microsoft Power Automate",
    trigger := { type := "Microsoft Forms",
                 operation := "When a new response is submitted",
                 form_name := form_schema.title },
    steps :=
      [ { step_number := 1, name := "Get Form Response",
          type := "Microsoft Forms - Get response details", connector := "Microsoft Forms" },
        { step_number := 2, name := "Create Excel Tracking Row",
          type := "Excel Online - Add row", connector := "Excel Online (Business)" },
        { step_number := 3, name := "Send Confirmation Email",
          type := "Outlook - Send email", connector := "Office 365 Outlook" } ]
      ++ approval_steps_from 4 approval_chain
      ++ [ { step_number := 4 + 2 * approval_chain.length, name := "Send Final Notification",
             type := "Outlook - Send email", connector := "Office 365 Outlook" } ] }

/-- Embedding of `agent._generate_master_json`. -/
def generate_master_json (analysis : EnrichedAnalysis) (approval_chain : List Approver)
    (user_answers : List (String × String)) (form_schema : FormSchema)
    (excel_schema : ExcelSchema) (workflow : PAWorkflow) : MasterJson :=
  { metadata := { workflow_name := analysis.workflow_name.getD "",
                  description := analysis.workflow_description.getD "",
                  version := "1.0",
                  generated_with := "LLM-Enhanced Workflow Generator",
                  platform := "Microsoft 365" },
    user_requirements := user_answers,
    workflow_analysis := { approval_chain := approval_chain,
                           business_rules := analysis.business_rules,
                           notifications := analysis.notifications },
    microsoft_forms := form_schema,
    excel_tracker := excel_schema,
    power_automate_workflow := workflow }

/-- Composition of the four derivation stages in graph order
(`generate_form` → `generate_excel` → `generate_workflow` →
`create_master`), as run after enrichment. -/
def assemble_specification (analysis : EnrichedAnalysis) (approval_chain : List Approver)
    (user_answers : List (String × String)) : MasterJson :=
  let fs := generate_form_schema analysis approval_chain
  let es := generate_excel_schema analysis approval_chain fs
  let wf := generate_workflow analysis fs es approval_chain
  generate_master_json analysis approval_chain user_answers fs es wf

/-- The three deterministic schema-derivation stages, given an `oracle`
argument standing for the text the Inference Gateway would return.
None of `_generate_form_schema`, `_generate_excel_schema`,
`_generate_workflow` contains a `model.invoke` call in the source, so
the oracle is never consulted. -/
def schema_derivation (oracle : String) (analysis : EnrichedAnalysis)
    (approval_chain : List Approver) : FormSchema × ExcelSchema × PAWorkflow :=
  let fs := generate_form_schema analysis approval_chain
  let es := generate_excel_schema analysis approval_chain fs
  let wf := generate_workflow analysis fs es approval_chain
  (fs, es, wf)

/-- Fallback `data_to_collect` substituted by
`agent._enrich_workflow_analysis` when the enrichment response cannot
be parsed (the three generic fields; no `validation`/`purpose` keys). -/
def fallback_data_to_collect : List DataField :=
  [ { field_name := "submitter_name", label := "Your Full Name", type := "text",
      required := some true },
    { field_name := "submitter_email", label := "Your Email", type := "email",
      required := some true },
    { field_name := "request_details", label := "Request Details", type := "textarea",
      required := some true } ]

/-! ## Modification pipeline mutators (mod_agent.py) -/

/-- Renumbering loop `for idx, a in enumerate(chain, n): a["level"] = idx`. -/
def renumberFrom (n : Int) : List Approver → List Approver
  | [] => []
  | a :: rest => { a with level := n } :: renumberFrom (n + 1) rest

/-- First-match update of the `modify` branch of
`mod_agent._modify_approval_chain` (the loop `break`s after the first
approver whose level equals `details["level"]`; an absent level key
matches no approver). -/
def modifyFirstApprover (lvl : Option Int) (details : EditDetails) :
    List Approver → List Approver
  | [] => []
  | a :: rest =>
    if some a.level = lvl then
      { a with approver_role := details.role.getD a.approver_role,
               timeout_hours := details.timeout_hours.getD a.timeout_hours,
               rejection_behavior := details.rejection_behavior.getD a.rejection_behavior }
        :: rest
    else a :: modifyFirstApprover lvl details rest

/-- Embedding of `mod_agent._modify_approval_chain`.  `add` inserts the
new approver at `details["level"] - 1` (Python `list.insert` clamping),
renumbers all levels from 1, and appends the two companion form fields;
`remove` drops every approver whose level equals `details["level"]`
and renumbers; `modify` updates the first matching approver in place. -/
def modify_approval_chain (workflow : MasterJson) (action : String) (details : EditDetails) :
    MasterJson :=
  let chain := workflow.workflow_analysis.approval_chain
  match action with
  | "add" =>
    let new_level : Int := details.level.getD ((chain.length : Int) + 1)
    let new_approver : Approver :=
      { level := new_level,
        approver_role := details.role.getD "New Approver",
        approver_type := "single",
        source := "from_form",
        conditions := ["Level " ++ toString new_level ++ " approver"],
        rejection_behavior := details.rejection_behavior.getD "end_workflow",
        notification_rules := [],
        timeout_hours := details.timeout_hours.getD 48 }
    let chain2 := renumberFrom 1 (pyInsert chain (new_level - 1) new_approver)
    let role_field := roleFieldName new_approver.approver_role
    let form_qs := workflow.microsoft_forms.questions
    let form_qs2 := form_qs ++
      [ { id := "q" ++ toString (form_qs.length + 1), field_name := role_field ++ "_name",
          type := "text", title := new_approver.approver_role ++ " Name", required := true,
          validation := none, purpose := "approver_identification" },
        { id := "q" ++ toString (form_qs.length + 2), field_name := role_field ++ "_email",
          type := "email", title := new_approver.approver_role ++ " Email", required := true,
          validation := none, purpose := "approver_contact" } ]
    { workflow with
      workflow_analysis := { workflow.workflow_analysis with approval_chain := chain2 },
      microsoft_forms := { workflow.microsoft_forms with questions := form_qs2 } }
  | "remove" =>
    let chain2 := renumberFrom 1 (chain.filter (fun a => !(some a.level == details.level)))
    { workflow with
      workflow_analysis := { workflow.workflow_analysis with approval_chain := chain2 } }
  | "modify" =>
    let chain2 := modifyFirstApprover details.level details chain
    { workflow with
      workflow_analysis := { workflow.workflow_analysis with approval_chain := chain2 } }
  | _ => workflow

/-- Embedding of `mod_agent._modify_form_schema`: `add` appends a field
built from the details with `dict.get` defaults; `remove` drops every
question whose `field_name` equals `details["field_name"]`. -/
def modify_form_schema (workflow : MasterJson) (action : String) (details : EditDetails) :
    MasterJson :=
  let qs := workflow.microsoft_forms.questions
  match action with
  | "add" =>
    let qs2 := qs ++
      [ { id := "q" ++ toString (qs.length + 1),
          field_name := details.field_name.getD "new_field",
          type := details.type.getD "text",
          title := details.title.getD "New Field",
          required := details.required.getD false,
          validation := none,
          purpose := details.purpose.getD "general" } ]
    { workflow with microsoft_forms := { workflow.microsoft_forms with questions := qs2 } }
  | "remove" =>
    let qs2 := qs.filter (fun q => !(some q.field_name == details.field_name))
    { workflow with microsoft_forms := { workflow.microsoft_forms with questions := qs2 } }
  | _ => workflow

/-- Embedding of `mod_agent._modify_excel_schema`. -/
def modify_excel_schema (workflow : MasterJson) (action : String) (details : EditDetails) :
    MasterJson :=
  let cols := workflow.excel_tracker.columns
  match action with
  | "add" =>
    let cols2 := cols ++
      [ { name := details.name.getD "New Column", type := details.type.getD "text" } ]
    { workflow with excel_tracker := { workflow.excel_tracker with columns := cols2 } }
  | "remove" =>
    let cols2 := cols.filter (fun c => !(some c.name == details.name))
    { workflow with excel_tracker := { workflow.excel_tracker with columns := cols2 } }
  | _ => workflow

/-- Renumbering loop `for idx, s in enumerate(steps, 1): s["step_number"] = idx`. -/
def renumberStepsFrom (n : Nat) : List Step → List Step
  | [] => []
  | s :: rest => { s with step_number := n } :: renumberStepsFrom (n + 1) rest

/-- Embedding of `mod_agent._modify_workflow_steps`: `add` inserts at
`details["position"] - 1` and renumbers; `remove` drops every step whose
`step_number` equals `details["step_number"]` and renumbers. -/
def modify_workflow_steps (workflow : MasterJson) (action : String) (details : EditDetails) :
    MasterJson :=
  let steps := workflow.power_automate_workflow.steps
  match action with
  | "add" =>
    let position : Int := details.position.getD ((steps.length : Int) + 1)
    let new_step : Step :=
      { step_number := position.toNat, name := details.name.getD "New Step",
        type := details.type.getD "action", connector := details.connector.getD "" }
    let steps2 := renumberStepsFrom 1 (pyInsert steps (position - 1) new_step)
    { workflow with
      power_automate_workflow := { workflow.power_automate_workflow with steps := steps2 } }
  | "remove" =>
    let steps2 := renumberStepsFrom 1
      (steps.filter (fun s => !(some s.step_number == details.step_number)))
    { workflow with
      power_automate_workflow := { workflow.power_automate_workflow with steps := steps2 } }
  | _ => workflow

/-- Embedding of `mod_agent._modify_notifications` (only `add` acts). -/
def modify_notifications (workflow : MasterJson) (action : String) (details : EditDetails) :
    MasterJson :=
  match action with
  | "add" =>
    let notifs := workflow.workflow_analysis.notifications ++
      [ { trigger := details.trigger.getD "on_action",
          recipients := details.recipients.getD [],
          platform := details.platform.getD "Outlook",
          template := details.template.getD "notification" } ]
    { workflow with
      workflow_analysis := { workflow.workflow_analysis with notifications := notifs } }
  | _ => workflow

/-- Embedding of `mod_agent._validate_modifications`: the two recorded
consistency warnings.  The second check counts every form question
whose `field_name` contains the substring `"email"` and compares the
count with the approval-chain length. -/
def validate_modifications (modified_workflow : MasterJson) : List String :=
  let approval_chain := modified_workflow.workflow_analysis.approval_chain
  let levels := approval_chain.map (fun a => a.level)
  let issues1 : List String :=
    if levels ≠ [] ∧ levels ≠ intRange 1 levels.length then
      ["Approval levels are not sequential"]
    else []
  let form_questions := modified_workflow.microsoft_forms.questions
  let approver_emails := form_questions.filter (fun q => containsEmail q.field_name)
  if approver_emails.length ≠ approval_chain.length then
    issues1 ++ ["Form approver fields don\x27t match approval chain"]
  else issues1

/-! ## Versioned specification store (sqlite `state` table) -/

/-- Row of the `state` table (`chatid`, `workflow`, `version`,
`timestamp`); `workflow` holds the serialized document text. -/
structure StateRow where
  chatid : String
  workflow : String
  version : Nat
  timestamp : String
deriving Repr, DecidableEq

/-- Value of `SELECT MAX(CAST(version AS INTEGER)) FROM state WHERE
chatid = ?` (`none` models the SQL NULL of an empty selection). -/
def maxStateVersion (rows : List StateRow) (chatid : String) : Option Nat :=
  match (rows.filter (fun r => r.chatid == chatid)).map (fun r => r.version) with
  | [] => none
  | v :: vs => some (vs.foldl max v)

/-- Database append of `mod_agent._display_results`: the new version is
`max + 1`, or 1 when the thread has no rows; the row is inserted at the
end.  Returns the grown table and the assigned version. -/
def display_results_append (rows : List StateRow) (chat_id workflow_json timestamp : String) :
    List StateRow × Nat :=
  let new_version : Nat :=
    match maxStateVersion rows chat_id with
    | none => 1
    | some m => m + 1
  (rows ++ [{ chatid := chat_id, workflow := workflow_json, version := new_version,
              timestamp := timestamp }], new_version)

/-- Database insert of `agent._display_output`: the generation pipeline
logs its completion with the literal version string `"0"` and stores
the workflow name in the `workflow` column. -/
def display_output_insert (rows : List StateRow) (chat_id workflow_name timestamp : String) :
    List StateRow :=
  rows ++ [{ chatid := chat_id, workflow := workflow_name, version := 0,
             timestamp := timestamp }]

/-- Ascending insertion for `ORDER BY CAST(version AS INTEGER) ASC`. -/
def insertAscNat (v : Nat) : List Nat → List Nat
  | [] => [v]
  | w :: rest => if v ≤ w then v :: w :: rest else w :: insertAscNat v rest

/-- Insertion sort realising the SQL ascending order. -/
def sortAscNat : List Nat → List Nat
  | [] => []
  | v :: rest => insertAscNat v (sortAscNat rest)

/-- Embedding of the `/get_versions/<chat_id>` route of app.py. -/
def get_versions (rows : List StateRow) (chat_id : String) : List Nat :=
  sortAscNat ((rows.filter (fun r => r.chatid == chat_id)).map (fun r => r.version))

/-- Descending insertion for `ORDER BY CAST(version AS INTEGER) DESC`. -/
def insertDescRow (r : StateRow) : List StateRow → List StateRow
  | [] => [r]
  | b :: rest => if b.version ≤ r.version then r :: b :: rest else b :: insertDescRow r rest

/-- Insertion sort realising the SQL descending order. -/
def sortDescRows : List StateRow → List StateRow
  | [] => []
  | r :: rest => insertDescRow r (sortDescRows rest)

/-- Highest-version row of a thread: `SELECT workflow FROM state WHERE
chatid = ? ORDER BY CAST(version AS INTEGER) DESC LIMIT 1`. -/
def latest_record (rows : List StateRow) (chat_id : String) : Option StateRow :=
  (sortDescRows (rows.filter (fun r => r.chatid == chat_id))).head?

/-- Embedding of the `/select_version` route of app.py: fetch the row of
the requested version (first match in table order); on success
overwrite the thread's current-document file with its `workflow` text
and delete every row of the thread with a strictly greater version.
Returns the truncated table and the new current document, or `none`
for the 404 case. -/
def select_version (rows : List StateRow) (chat_id : String) (version : Nat) :
    Option (List StateRow × String) :=
  match (rows.filter (fun r => r.chatid == chat_id && r.version == version)).head? with
  | none => none
  | some row =>
    some (rows.filter (fun r => !(r.chatid == chat_id && version < r.version)),
          row.workflow)

/-- Five successive appends of documents `d1..d5` for one thread
(the §8 rollback-law scenario). -/
def append_five (rows : List StateRow) (chat_id d1 d2 d3 d4 d5 t1 t2 t3 t4 t5 : String) :
    List StateRow :=
  let s1 := (display_results_append rows chat_id d1 t1).1
  let s2 := (display_results_append s1 chat_id d2 t2).1
  let s3 := (display_results_append s2 chat_id d3 t3).1
  let s4 := (display_results_append s3 chat_id d4 t4).1
  let s5 := (display_results_append s4 chat_id d5 t5).1
  s5

/-! ## Clarification loop and validation gate -/

/-- Validation judgment as consumed by the round-gating decision; the
only key either `_should_ask_more_questions` reads is `can_proceed`,
with `dict.get` default `True`. -/
structure ValidationResult where
  can_proceed : Option Bool := none
deriving Repr, DecidableEq

/-- Embedding of `agent._should_ask_more_questions`: proceed when the
validation allows it or the iteration counter has reached 2. -/
def should_ask_more_questions (validation : ValidationResult) (iteration : Nat) : String :=
  if validation.can_proceed.getD true then "proceed"
  else if 2 ≤ iteration then "proceed"
  else "ask_more"

/-- Embedding of `mod_agent._should_ask_more_questions` (same decision
rule as the generation pipeline). -/
def mod_should_ask_more_questions (validation : ValidationResult) (iteration : Nat) : String :=
  if validation.can_proceed.getD true then "proceed"
  else if 2 ≤ iteration then "proceed"
  else "ask_more"

/-- Validation fallback of `agent._validate_user_answers` on a parse
failure: `can_proceed = True`. -/
def agent_fallback_validation : ValidationResult := { can_proceed := some true }

/-- Validation fallback of `mod_agent._validate_user_answers` on a
parse failure: `can_proceed = True`. -/
def mod_fallback_validation : ValidationResult := { can_proceed := some true }

/-- Number of question batches the generation pipeline issues from
iteration counter `iteration`, when the k-th validation returns
`cp k`.  In agent.py the counter is incremented inside
`_generate_clarifying_questions` when a new batch's first question is
shown, so the batch issued from counter value `iteration` is validated
at counter value `iteration + 1`; `ask_more` loops straight back to
`generate_questions`. -/
def agent_rounds_from (cp : Nat → ValidationResult) (iteration : Nat) : Nat :=
  if should_ask_more_questions (cp (iteration + 1)) (iteration + 1) = "proceed" then 1
  else 1 + agent_rounds_from cp (iteration + 1)
termination_by 2 - iteration
decreasing_by
  rename_i h
  have hlt : ¬ 2 ≤ iteration + 1 := by
    intro hge
    apply h
    by_cases hb : (cp (iteration + 1)).can_proceed.getD true = true
    · simp [should_ask_more_questions, hb]
    · simp [should_ask_more_questions, hb, hge]
  omega

/-- Number of question batches the modification pipeline issues from
iteration counter `iteration`.  In mod_agent.py the counter starts at 0
after analysis, the batch is validated at the current counter value,
and `ask_more` routes through `increment_iteration` before the next
batch. -/
def mod_rounds_from (cp : Nat → ValidationResult) (iteration : Nat) : Nat :=
  if mod_should_ask_more_questions (cp iteration) iteration = "proceed" then 1
  else 1 + mod_rounds_from cp (iteration + 1)
termination_by 2 - iteration
decreasing_by
  rename_i h
  have hlt : ¬ 2 ≤ iteration := by
    intro hge
    apply h
    by_cases hb : (cp iteration).can_proceed.getD true = true
    · simp [mod_should_ask_more_questions, hb]
    · simp [mod_should_ask_more_questions, hb, hge]
  omega

/-- Embedding of `agent._collect_user_answers`: when the cursor is in
range, record the caller's text (empty or not) under the current
question's id and advance the cursor; otherwise leave the state
unchanged (the source guard `not questions or index >= len(questions)`
is exactly `¬ index < questions.length`). -/
def collect_user_answers (questions : List Question) (index : Nat)
    (last_user_message : String) (user_answers : List (String × String)) :
    List (String × String) × Nat :=
  if h : index < questions.length then
    (dictInsert user_answers (questions.get ⟨index, h⟩).id last_user_message, index + 1)
  else (user_answers, index)

/-- Embedding of `mod_agent._collect_user_answers`: the caller's text is
stripped first; a blank text leaves the answers and the cursor
unchanged (the node keeps waiting), otherwise the stripped text is
recorded and the cursor advances.  (The source checks
`index >= len(questions)` before the blank check; the result is the
same.) -/
def mod_collect_user_answers (questions : List Question) (index : Nat)
    (last_user_message : String) (user_answers : List (String × String)) :
    List (String × String) × Nat :=
  let user_message := pyStrip last_user_message
  if h : index < questions.length then
    if user_message = "" then (user_answers, index)
    else (dictInsert user_answers (questions.get ⟨index, h⟩).id user_message, index + 1)
  else (user_answers, index)

/-! ## Concrete scenario material -/

/-- Approver record for a level-1 Manager as `agent._analyze_request`
builds it. -/
def managerApprover : Approver :=
  { level := 1, approver_role := "Manager", approver_type := "single",
    source := "from_form",
    conditions := ["Level 1 approver", "Can approve/reject with comments"],
    rejection_behavior := "end_workflow", notification_rules := [], timeout_hours := 48 }

/-- Approver record for a level-2 Director. -/
def directorApprover : Approver :=
  { level := 2, approver_role := "Director", approver_type := "single",
    source := "from_form",
    conditions := ["Level 2 approver", "Can approve/reject with comments"],
    rejection_behavior := "end_workflow", notification_rules := [], timeout_hours := 48 }

/-- The `[Manager, Director]` chain of the removal scenario. -/
def scenario_chain : List Approver := [managerApprover, directorApprover]

/-- Enriched analysis for the scenario, using the fallback field set. -/
def scenario_analysis : EnrichedAnalysis :=
  { workflow_name := some "Leave Request",
    workflow_description := some "Leave request approval",
    data_to_collect := fallback_data_to_collect }

/-- Scenario document: a Leave Request specification assembled for the
`[Manager, Director]` chain. -/
def scenario_document : MasterJson :=
  assemble_specification scenario_analysis scenario_chain []

/-- Planned edit details for removing the level-1 approver. -/
def remove_manager_details : EditDetails := { level := some 1 }

/-- The full edit sequence a remove-Manager plan needs: the
approval-chain remove plus one form-schema remove per Manager field
(the chain mutator itself never touches the form schema). -/
def apply_remove_manager (wf : MasterJson) : MasterJson :=
  modify_form_schema
    (modify_form_schema
      (modify_approval_chain wf "remove" remove_manager_details)
      "remove" { field_name := some "manager_name" })
    "remove" { field_name := some "manager_email" }

/-- Sample clarification question (shape of the parsed question batch
entries of both pipelines). -/
def sample_question : Question :=
  { id := "q_1", field_name := "notes", type := "text", title := "Notes",
    required := false, validation := none, purpose := "general" }

/-! ## Helper lemmas -/

/-- Clamped insertion grows a list by exactly one element. -/
theorem insertAt_length (x : α) (n : Nat) (l : List α) :
    (insertAt x n l).length = l.length + 1 := by
  induction l generalizing n with
  | nil => cases n <;> simp [insertAt]
  | cons a rest ih =>
    cases n with
    | zero => simp [insertAt]
    | succ m => simp [insertAt, ih]

/-- Python insertion grows a list by exactly one element. -/
theorem pyInsert_length (l : List α) (i : Int) (x : α) :
    (pyInsert l i x).length = l.length + 1 := by
  unfold pyInsert
  exact insertAt_length ..

/-- Renumbering overwrites the level fields with the contiguous run
starting at `n`. -/
theorem renumberFrom_map_level (n : Int) (l : List Approver) :
    (renumberFrom n l).map (fun a => a.level) = intRange n l.length := by
  induction l generalizing n with
  | nil => simp [renumberFrom, intRange]
  | cons a rest ih => simp [renumberFrom, intRange, ih]

/-- Renumbering preserves the chain length. -/
theorem renumberFrom_length (n : Int) (l : List Approver) :
    (renumberFrom n l).length = l.length := by
  induction l generalizing n with
  | nil => rfl
  | cons a rest ih => simp [renumberFrom, ih]

/-! ## Claims -/

/-- C1: for every approval chain and every add or remove edit applied by
`_modify_approval_chain`, the resulting chain's level values equal the
contiguous sequence `1..N` (`N` = resulting chain length), with no
gaps, regardless of the level given in the edit details. -/
theorem approval_chain_levels_contiguous (wf : MasterJson) (details : EditDetails) :
    ((modify_approval_chain wf "add" details).workflow_analysis.approval_chain.map
        (fun a => a.level) =
      intRange 1
        (modify_approval_chain wf "add" details).workflow_analysis.approval_chain.length) ∧
    ((modify_approval_chain wf "remove" details).workflow_analysis.approval_chain.map
        (fun a => a.level) =
      intRange 1
        (modify_approval_chain wf "remove" details).workflow_analysis.approval_chain.length) := by
  constructor <;>
    simp [modify_approval_chain, renumberFrom_map_level, renumberFrom_length]

/-- C4 counterexample: on the Leave Request scenario document with
chain `[Manager, Director]`, the planned approval-chain remove edit for
the Manager does yield the chain `[{level 1, Director}]`, but it leaves
the form schema untouched: the Manager's identity and contact fields
are still present, so the edit does not remove the Manager-specific
form fields as the claim states. -/
theorem chain_remove_keeps_manager_fields :
    (modify_approval_chain scenario_document "remove"
        remove_manager_details).workflow_analysis.approval_chain =
      [{ directorApprover with level := 1 }] ∧
    (modify_approval_chain scenario_document "remove"
        remove_manager_details).microsoft_forms.questions =
      scenario_document.microsoft_forms.questions ∧
    ((modify_approval_chain scenario_document "remove"
        remove_manager_details).microsoft_forms.questions.any
      (fun q => q.field_name == "manager_email")) = true := by
  refine ⟨by decide, rfl, by decide⟩

/-- C4 (amended): on a document whose approval chain is
`[Manager at 1, Director at 2]`, the approval-chain remove edit for the
Manager yields the chain `[{level 1, role Director}]` while leaving the
form schema unchanged; the Manager-specific form fields are removed by
the two separate form-schema remove edits (one per field name), after
which no `manager_name` or `manager_email` field remains. -/
theorem remove_manager_scenario (wf : MasterJson)
    (hchain : wf.workflow_analysis.approval_chain = scenario_chain) :
    (apply_remove_manager wf).workflow_analysis.approval_chain =
      [{ directorApprover with level := 1 }] ∧
    (modify_approval_chain wf "remove" remove_manager_details).microsoft_forms.questions =
      wf.microsoft_forms.questions ∧
    ∀ q ∈ (apply_remove_manager wf).microsoft_forms.questions,
      q.field_name ≠ "manager_name" ∧ q.field_name ≠ "manager_email" := by
  refine ⟨?_, rfl, ?_⟩
  · simp only [apply_remove_manager, modify_form_schema, modify_approval_chain]
    rw [hchain]
    decide
  · intro q hq
    simp only [apply_remove_manager, modify_form_schema, modify_approval_chain] at hq
    rw [List.mem_filter] at hq
    obtain ⟨hq1, hpe⟩ := hq
    rw [List.mem_filter] at hq1
    obtain ⟨_, hpn⟩ := hq1
    simp only [Bool.not_eq_true', beq_eq_false_iff_ne, ne_eq, Option.some.injEq] at hpe hpn
    exact ⟨hpn, hpe⟩

/-- C4 amended-claim witness at the concrete scenario document. -/
theorem remove_manager_scenario_witness :
    (apply_remove_manager scenario_document).workflow_analysis.approval_chain =
      [{ directorApprover with level := 1 }] ∧
    ∀ q ∈ (apply_remove_manager scenario_document).microsoft_forms.questions,
      q.field_name ≠ "manager_name" ∧ q.field_name ≠ "manager_email" :=
  ⟨(remove_manager_scenario scenario_document (by decide)).1,
   (remove_manager_scenario scenario_document (by decide)).2.2⟩

/-- Splitting lemma for contiguous natural runs. -/
theorem natRange_append (s a b : Nat) :
    natRange s (a + b) = natRange s a ++ natRange (s + a) b := by
  induction a generalizing s with
  | zero => simp [natRange]
  | succ a ih =>
    have h1 : s + (a + 1) = s + 1 + a := by omega
    have h2 : a + 1 + b = (a + b) + 1 := by omega
    rw [h2]
    simp only [natRange, List.cons_append, h1]
    rw [ih]

/-- Names of the per-approver step pairs. -/
theorem approval_steps_from_names (n : Nat) (l : List Approver) :
    (approval_steps_from n l).map (fun s => s.name) =
      l.flatMap (fun a => ["Approval - " ++ a.approver_role,
                        "Update Excel - " ++ a.approver_role]) := by
  induction l generalizing n with
  | nil => simp [approval_steps_from]
  | cons a rest ih => simp [approval_steps_from, ih]

/-- Step numbers of the per-approver step pairs form the contiguous run
of length `2 * length` starting at the counter value. -/
theorem approval_steps_from_numbers (n : Nat) (l : List Approver) :
    (approval_steps_from n l).map (fun s => s.step_number) =
      natRange n (2 * l.length) := by
  induction l generalizing n with
  | nil => simp [approval_steps_from, natRange]
  | cons a rest ih =>
    simp only [approval_steps_from, List.map_cons, List.length_cons, Nat.mul_succ, natRange,
      List.cons.injEq, ih]
    exact ⟨trivial, trivial, rfl⟩

/-- C7 counterexample: for a one-approver chain the derived automation
step sequence has six steps (three prologue steps, one
approval/update pair, one final notice) and contains no
branch-on-rejection step, while the claim's per-approver triple would
require `3 + 3*1 + 1 = 7` steps. -/
theorem workflow_steps_have_no_rejection_branch :
    ((schema_derivation "" scenario_analysis [managerApprover]).2.2.steps.map
        (fun s => s.name)) =
      ["Get Form Response", "Create Excel Tracking Row", "Send Confirmation Email",
       "Approval - Manager", "Update Excel - Manager", "Send Final Notification"] ∧
    (schema_derivation "" scenario_analysis [managerApprover]).2.2.steps.length ≠
      3 + 3 * 1 + 1 := by
  refine ⟨by decide, by decide⟩

/-- C7 (amended): for every enriched specification and approval chain
of length N, the derived automation step sequence is fetch-input,
create-tracking-record, send-confirmation, then for each approver in
chain order the PAIR request-approval and update-tracking-record (the
source emits no branch-on-rejection step), and finally
send-final-notice, with step numbers dense and ascending from 1. -/
theorem generated_workflow_structure (analysis : EnrichedAnalysis) (form : FormSchema)
    (excel : ExcelSchema) (chain : List Approver) :
    ((generate_workflow analysis form excel chain).steps.map (fun s => s.name) =
      ["Get Form Response", "Create Excel Tracking Row", "Send Confirmation Email"]
        ++ chain.flatMap (fun a => ["Approval - " ++ a.approver_role,
                                    "Update Excel - " ++ a.approver_role])
        ++ ["Send Final Notification"]) ∧
    ((generate_workflow analysis form excel chain).steps.map (fun s => s.step_number) =
      natRange 1 (3 + 2 * chain.length + 1)) := by
  constructor
  · simp [generate_workflow, approval_steps_from_names]
  · simp only [generate_workflow, List.map_append, List.map_cons, List.map_nil,
      approval_steps_from_numbers]
    rw [show 3 + 2 * chain.length + 1 = 3 + (2 * chain.length + 1) by omega,
        natRange_append, natRange_append]
    simp [natRange]

/-- C8: schema derivation is purely deterministic: it is a function of
the enriched specification and the approval chain alone, and since none
of the three derivation stages contains an inference call, the output
is independent of whatever the Inference Gateway oracle would answer;
two runs on the same inputs therefore produce identical form schema,
tracker schema and automation steps. -/
theorem schema_derivation_deterministic (o1 o2 : String) (analysis : EnrichedAnalysis)
    (approval_chain : List Approver) :
    schema_derivation o1 analysis approval_chain =
      schema_derivation o2 analysis approval_chain := rfl

/-- Round gate of agent.py always proceeds once the iteration counter
has reached 2, whatever the validation says. -/
theorem should_ask_more_questions_at_ceiling (v : ValidationResult) (it : Nat)
    (h : 2 ≤ it) : should_ask_more_questions v it = "proceed" := by
  unfold should_ask_more_questions
  by_cases hb : v.can_proceed.getD true = true
  · simp [hb]
  · simp [hb, h]

/-- Round gate of mod_agent.py always proceeds once the iteration
counter has reached 2. -/
theorem mod_should_ask_more_questions_at_ceiling (v : ValidationResult) (it : Nat)
    (h : 2 ≤ it) : mod_should_ask_more_questions v it = "proceed" := by
  unfold mod_should_ask_more_questions
  by_cases hb : v.can_proceed.getD true = true
  · simp [hb]
  · simp [hb, h]

/-- From counter value 1 the generation loop issues exactly one more
batch (the batch is validated at counter value 2, the ceiling). -/
theorem agent_rounds_from_one (cp : Nat → ValidationResult) :
    agent_rounds_from cp 1 = 1 := by
  unfold agent_rounds_from
  rw [if_pos (should_ask_more_questions_at_ceiling _ _ (by omega))]

/-- From counter value 2 the modification loop issues exactly one more
batch. -/
theorem mod_rounds_from_two (cp : Nat → ValidationResult) :
    mod_rounds_from cp 2 = 1 := by
  unfold mod_rounds_from
  rw [if_pos (mod_should_ask_more_questions_at_ceiling _ _ (by omega))]

/-- C5: in both pipelines the number of clarification rounds (question
batches issued) is bounded by the fixed ceiling of 2 extra rounds after
the first, whatever sequence of validation judgments the Inference
Gateway produces; and with the parse-failure fallback judgment
(`can_proceed = True`) both pipelines finish after a single round, so
an always-unparsable gateway still reaches a terminal state within the
ceiling. -/
theorem clarification_rounds_bounded (cp cp2 : Nat → ValidationResult) :
    agent_rounds_from cp 0 ≤ 1 + 2 ∧ mod_rounds_from cp2 0 ≤ 1 + 2 ∧
    agent_rounds_from (fun _ => agent_fallback_validation) 0 = 1 ∧
    mod_rounds_from (fun _ => mod_fallback_validation) 0 = 1 := by
  refine ⟨?_, ?_, ?_, ?_⟩
  · unfold agent_rounds_from
    split
    · omega
    · rw [agent_rounds_from_one]
      omega
  · unfold mod_rounds_from
    split
    · omega
    · unfold mod_rounds_from
      split
      · omega
      · rw [mod_rounds_from_two]
  · unfold agent_rounds_from
    rw [if_pos (by simp [should_ask_more_questions, agent_fallback_validation])]
  · unfold mod_rounds_from
    rw [if_pos (by simp [mod_should_ask_more_questions, mod_fallback_validation])]

/-- Recording an answer makes it retrievable under the question id
(Python dict assignment followed by lookup). -/
theorem dictLookup_dictInsert (m : List (String × String)) (k v : String) :
    dictLookup (dictInsert m k v) k = some v := by
  unfold dictInsert
  split
  · rename_i h
    induction m with
    | nil => simp at h
    | cons p rest ih =>
      by_cases hp : (p.1 == k) = true
      · simp [dictLookup, hp]
      · have hrest : rest.any (fun p => p.1 == k) = true := by
          rcases List.any_eq_true.mp h with ⟨q, hq, hqk⟩
          rcases List.mem_cons.mp hq with rfl | hq2
          · exact absurd hqk hp
          · exact List.any_eq_true.mpr ⟨q, hq2, hqk⟩
        simp only [List.map_cons, if_neg hp]
        simpa [dictLookup, hp] using ih hrest
  · rename_i h
    induction m with
    | nil => simp [dictLookup]
    | cons p rest ih =>
      have hp : (p.1 == k) = false := by
        rcases Bool.eq_false_or_eq_true (p.1 == k) with ht | hf
        · exact absurd (List.any_eq_true.mpr ⟨p, List.mem_cons_self _ _, ht⟩) h
        · exact hf
      have hrest : ¬ rest.any (fun p => p.1 == k) = true := by
        intro hr
        rcases List.any_eq_true.mp hr with ⟨q, hq, hqk⟩
        exact h (List.any_eq_true.mpr ⟨q, List.mem_cons_of_mem _ hq, hqk⟩)
      simpa [dictLookup, hp] using ih hrest

/-- C6 counterexample: in the modification pipeline, resuming with an
empty answer to the pending question records nothing and does not
advance the cursor — `_collect_user_answers` of mod_agent.py returns a
waiting message instead, so the same question is asked again. -/
theorem mod_empty_answer_not_recorded :
    mod_collect_user_answers [sample_question] 0 "" [] = ([], 0) ∧
    dictLookup (mod_collect_user_answers [sample_question] 0 "" []).1
      sample_question.id = none ∧
    (mod_collect_user_answers [sample_question] 0 "" []).2 ≠ 0 + 1 := by
  refine ⟨by decide, by decide, by decide⟩

/-- C6 (amended): in the generation pipeline an empty answer is still
recorded under the pending question's id and the cursor advances; in
the modification pipeline an empty answer is ignored — the answers map
and the cursor are left unchanged and the node keeps waiting, so the
pending question is re-asked. -/
theorem empty_answer_handling (questions : List Question) (index : Nat)
    (answers : List (String × String)) (h : index < questions.length) :
    collect_user_answers questions index "" answers =
      (dictInsert answers (questions.get ⟨index, h⟩).id "", index + 1) ∧
    dictLookup (collect_user_answers questions index "" answers).1
      (questions.get ⟨index, h⟩).id = some "" ∧
    mod_collect_user_answers questions index "" answers = (answers, index) := by
  refine ⟨?_, ?_, ?_⟩
  · simp [collect_user_answers, h]
  · simp [collect_user_answers, h, dictLookup_dictInsert]
  · simp [mod_collect_user_answers, h, pyStrip]

/-- C6 amended-claim witness on a one-question batch. -/
theorem empty_answer_handling_witness :
    collect_user_answers [sample_question] 0 "" [("x", "y")] =
      (dictInsert [("x", "y")] sample_question.id "", 0 + 1) ∧
    mod_collect_user_answers [sample_question] 0 "" [("x", "y")] = ([("x", "y")], 0) :=
  ⟨(empty_answer_handling [sample_question] 0 [("x", "y")] (by decide)).1,
   (empty_answer_handling [sample_question] 0 [("x", "y")] (by decide)).2.2⟩

/-- Seed bound for a running maximum. -/
theorem le_foldl_max (l : List Nat) (a : Nat) : a ≤ l.foldl max a := by
  induction l generalizing a with
  | nil => simp
  | cons x rest ih => exact le_trans (le_max_left a x) (ih (max a x))

/-- Member bound for a running maximum. -/
theorem mem_le_foldl_max (l : List Nat) (a v : Nat) (hv : v ∈ l) : v ≤ l.foldl max a := by
  induction l generalizing a with
  | nil => cases hv
  | cons x rest ih =>
    rcases List.mem_cons.mp hv with rfl | h
    · exact le_trans (le_max_right a v) (le_foldl_max rest (max a v))
    · exact ih (max a x) h

/-- C3 counterexample: on an empty store, the record persisted by the
generation pipeline on completion (`agent._display_output`) is the
thread's first version record and carries version 0, not version 1. -/
theorem generation_first_record_version_zero :
    (display_output_insert [] "thread-1" "Leave Request" "2026-01-01 00:00:00").map
      (fun r => r.version) = [0] ∧ (0 : Nat) ≠ 1 := by
  exact ⟨rfl, by decide⟩

/-- C3 (amended): the modification pipeline's store append
(`mod_agent._display_results`) assigns `version = max(existing versions
for the thread) + 1`, starting at 1 when the thread has none, and
appends without overwriting; the generation pipeline's completion
record (`agent._display_output`), however, is written with the literal
version 0, so a thread's first persisted record carries version 0 when
it comes from generation. -/
theorem append_version_monotone (rows : List StateRow) (chat_id doc ts : String) :
    (∀ r ∈ rows, r.chatid = chat_id →
      r.version < (display_results_append rows chat_id doc ts).2) ∧
    (rows.filter (fun r => r.chatid == chat_id) = [] →
      (display_results_append rows chat_id doc ts).2 = 1) ∧
    ((display_results_append rows chat_id doc ts).1 =
      rows ++ [{ chatid := chat_id, workflow := doc,
                 version := (display_results_append rows chat_id doc ts).2,
                 timestamp := ts }]) ∧
    (display_output_insert rows chat_id doc ts =
      rows ++ [{ chatid := chat_id, workflow := doc, version := 0, timestamp := ts }]) := by
  refine ⟨?_, ?_, rfl, rfl⟩
  · intro r hr hc
    have hmem : r.version ∈ (rows.filter (fun r => r.chatid == chat_id)).map
        (fun r => r.version) :=
      List.mem_map.mpr ⟨r, List.mem_filter.mpr ⟨hr, by simp [hc]⟩, rfl⟩
    simp only [display_results_append, maxStateVersion]
    rcases hlist : (rows.filter (fun r => r.chatid == chat_id)).map (fun r => r.version) with
      _ | ⟨v0, vs⟩
    · rw [hlist] at hmem; cases hmem
    · rw [hlist] at hmem
      simp only [hlist]
      rcases List.mem_cons.mp hmem with rfl | hmem2
      · exact Nat.lt_succ_of_le (le_foldl_max vs r.version)
      · exact Nat.lt_succ_of_le (mem_le_foldl_max vs v0 _ hmem2)
  · intro hnil
    simp [display_results_append, maxStateVersion, hnil]

/-- C3 amended-claim witness: a thread with one record at version 3
gets version 4 appended, and an empty thread starts at version 1. -/
theorem append_version_monotone_witness :
    (⟨"t", "d", 3, "ts"⟩ : StateRow).version <
      (display_results_append [⟨"t", "d", 3, "ts"⟩] "t" "d2" "ts2").2 ∧
    (display_results_append [] "t" "d1" "ts1").2 = 1 :=
  ⟨(append_version_monotone [⟨"t", "d", 3, "ts"⟩] "t" "d2" "ts2").1 _ (by simp) rfl,
   (append_version_monotone [] "t" "d1" "ts1").2.1 rfl⟩

/-- Filtering past a prefix on which the predicate is everywhere false. -/
theorem filter_append_of_false {α : Type} {p : α → Bool} {l1 : List α}
    (h : ∀ r ∈ l1, p r = false) (l2 : List α) :
    (l1 ++ l2).filter p = l2.filter p := by
  rw [List.filter_append, List.filter_eq_nil_iff.mpr (fun a ha => by simp [h a ha]),
    List.nil_append]

/-- Filtering keeps a prefix on which the predicate is everywhere true. -/
theorem filter_append_of_true {α : Type} {p : α → Bool} {l1 : List α}
    (h : ∀ r ∈ l1, p r = true) (l2 : List α) :
    (l1 ++ l2).filter p = l1 ++ l2.filter p := by
  rw [List.filter_append, List.filter_eq_self.mpr h]

/-- Rows of other threads do not influence a thread's maximum version. -/
theorem maxStateVersion_disjoint_append (rows l : List StateRow) (tid : String)
    (h : ∀ r ∈ rows, r.chatid ≠ tid) :
    maxStateVersion (rows ++ l) tid = maxStateVersion l tid := by
  unfold maxStateVersion
  rw [filter_append_of_false (fun r hr => by simp [h r hr]) l]

/-- Store append when the thread already has a maximum version. -/
theorem display_results_append_some (rows : List StateRow) (tid doc ts : String) (m : Nat)
    (hm : maxStateVersion rows tid = some m) :
    display_results_append rows tid doc ts =
      (rows ++ [⟨tid, doc, m + 1, ts⟩], m + 1) := by
  simp [display_results_append, hm]

/-- Store append for a thread with no rows yet. -/
theorem display_results_append_none (rows : List StateRow) (tid doc ts : String)
    (hm : maxStateVersion rows tid = none) :
    display_results_append rows tid doc ts = (rows ++ [⟨tid, doc, 1, ts⟩], 1) := by
  simp [display_results_append, hm]

/-- Appending documents 1..5 for a thread that had no rows produces
exactly the five version records 1..5 at the end of the table. -/
theorem append_five_disjoint (rows : List StateRow) (tid d1 d2 d3 d4 d5 t1 t2 t3 t4 t5 : String)
    (h : ∀ r ∈ rows, r.chatid ≠ tid) :
    append_five rows tid d1 d2 d3 d4 d5 t1 t2 t3 t4 t5 =
      rows ++ [⟨tid, d1, 1, t1⟩, ⟨tid, d2, 2, t2⟩, ⟨tid, d3, 3, t3⟩,
               ⟨tid, d4, 4, t4⟩, ⟨tid, d5, 5, t5⟩] := by
  have h0 : maxStateVersion rows tid = none := by
    unfold maxStateVersion
    rw [List.filter_eq_nil_iff.mpr (fun r hr => by simp [h r hr])]
    rfl
  have m1 : maxStateVersion (rows ++ [⟨tid, d1, 1, t1⟩]) tid = some 1 := by
    rw [maxStateVersion_disjoint_append rows _ tid h]; simp [maxStateVersion]
  have m2 : maxStateVersion (rows ++ [⟨tid, d1, 1, t1⟩, ⟨tid, d2, 2, t2⟩]) tid = some 2 := by
    rw [maxStateVersion_disjoint_append rows _ tid h]; simp [maxStateVersion]
  have m3 : maxStateVersion
      (rows ++ [⟨tid, d1, 1, t1⟩, ⟨tid, d2, 2, t2⟩, ⟨tid, d3, 3, t3⟩]) tid = some 3 := by
    rw [maxStateVersion_disjoint_append rows _ tid h]; simp [maxStateVersion]
  have m4 : maxStateVersion
      (rows ++ [⟨tid, d1, 1, t1⟩, ⟨tid, d2, 2, t2⟩, ⟨tid, d3, 3, t3⟩, ⟨tid, d4, 4, t4⟩])
      tid = some 4 := by
    rw [maxStateVersion_disjoint_append rows _ tid h]; simp [maxStateVersion]
  unfold append_five
  rw [display_results_append_none rows tid d1 t1 h0]
  simp only
  rw [display_results_append_some _ tid d2 t2 1 m1]
  simp only [List.append_assoc, List.cons_append, List.nil_append]
  rw [display_results_append_some _ tid d3 t3 2 m2]
  simp only [List.append_assoc, List.cons_append, List.nil_append]
  rw [display_results_append_some _ tid d4 t4 3 m3]
  simp only [List.append_assoc, List.cons_append, List.nil_append]
  rw [display_results_append_some _ tid d5 t5 4 m4]
  simp [List.append_assoc]

/-- C2: for a thread holding version records 1..5 (appended into a
store whose other rows belong to other threads), rolling back to
version 3 via `select_version` succeeds, makes the document stored at
version 3 the thread's externally visible current document, and
deletes every record with version greater than 3; listing versions on
the truncated store returns exactly `[1, 2, 3]` and the latest record
is the document originally stored as version 3. -/
theorem rollback_law (rows : List StateRow) (tid d1 d2 d3 d4 d5 t1 t2 t3 t4 t5 : String)
    (h : ∀ r ∈ rows, r.chatid ≠ tid) :
    select_version (append_five rows tid d1 d2 d3 d4 d5 t1 t2 t3 t4 t5) tid 3 =
      some (rows ++ [⟨tid, d1, 1, t1⟩, ⟨tid, d2, 2, t2⟩, ⟨tid, d3, 3, t3⟩], d3) ∧
    get_versions (rows ++ [⟨tid, d1, 1, t1⟩, ⟨tid, d2, 2, t2⟩, ⟨tid, d3, 3, t3⟩]) tid =
      [1, 2, 3] ∧
    (latest_record (rows ++ [⟨tid, d1, 1, t1⟩, ⟨tid, d2, 2, t2⟩, ⟨tid, d3, 3, t3⟩])
        tid).map (fun r => r.workflow) = some d3 := by
  have hsel : ∀ r ∈ rows, ((r.chatid == tid && r.version == 3) : Bool) = false :=
    fun r hr => by simp [h r hr]
  have hkeep : ∀ r ∈ rows, ((!(r.chatid == tid && decide (3 < r.version))) : Bool) = true :=
    fun r hr => by simp [h r hr]
  have hchat : ∀ r ∈ rows, ((r.chatid == tid) : Bool) = false :=
    fun r hr => by simp [h r hr]
  refine ⟨?_, ?_, ?_⟩
  · rw [append_five_disjoint rows tid d1 d2 d3 d4 d5 t1 t2 t3 t4 t5 h]
    unfold select_version
    rw [filter_append_of_false hsel]
    simp only [filter_append_of_true hkeep]
    simp [List.filter]
  · unfold get_versions
    rw [filter_append_of_false hchat]
    simp [List.filter, sortAscNat, insertAscNat]
  · unfold latest_record
    rw [filter_append_of_false hchat]
    simp [List.filter, sortDescRows, insertDescRow]

/-- C2 witness: the rollback law evaluated on the empty store with
concrete documents. -/
theorem rollback_law_witness :
    select_version (append_five [] "t" "doc1" "doc2" "doc3" "doc4" "doc5"
        "s1" "s2" "s3" "s4" "s5") "t" 3 =
      some ([⟨"t", "doc1", 1, "s1"⟩, ⟨"t", "doc2", 2, "s2"⟩, ⟨"t", "doc3", 3, "s3"⟩],
            "doc3") ∧
    get_versions [⟨"t", "doc1", 1, "s1"⟩, ⟨"t", "doc2", 2, "s2"⟩,
        ⟨"t", "doc3", 3, "s3"⟩] "t" = [1, 2, 3] ∧
    (latest_record [⟨"t", "doc1", 1, "s1"⟩, ⟨"t", "doc2", 2, "s2"⟩,
        ⟨"t", "doc3", 3, "s3"⟩] "t").map (fun r => r.workflow) = some "doc3" := by
  have := rollback_law [] "t" "doc1" "doc2" "doc3" "doc4" "doc5" "s1" "s2" "s3" "s4" "s5"
    (by simp)
  simpa using this

/-- A field name ending in `_email` contains the substring `email`. -/
theorem containsEmail_append_email (s : String) : containsEmail (s ++ "_email") = true := by
  unfold containsEmail
  rw [decide_eq_true_eq]
  have h1 : (s ++ "_email").toList = s.toList ++ "_email".toList := by
    simp [String.toList]
  rw [h1]
  refine List.IsSuffix.isInfix ⟨s.toList ++ ['_'], ?_⟩
  rw [List.append_assoc]
  rfl

/-- Every approver contributes at least one `email`-containing form
field (its contact field), so the auto-appended block contains at least
one such field per chain entry. -/
theorem approver_questions_countP_ge (n : Nat) (l : List Approver) :
    l.length ≤ (approver_questions_from n l).countP
      (fun q => containsEmail q.field_name) := by
  induction l generalizing n with
  | nil => simp [approver_questions_from]
  | cons a rest ih =>
    have hih := ih (n + 2)
    simp only [approver_questions_from, List.countP_cons, List.length_cons,
      containsEmail_append_email, if_true]
    by_cases hx : containsEmail (roleFieldName a.approver_role ++ "_name") = true <;>
      simp only [hx, if_true, if_false] <;> omega

/-- If some user-specified field's name contains `email`, so does the
corresponding generated form question. -/
theorem user_questions_countP_pos (n : Nat) (fields : List DataField)
    (h : ∃ f ∈ fields, containsEmail f.field_name = true) :
    0 < (user_questions_from n fields).countP (fun q => containsEmail q.field_name) := by
  induction fields generalizing n with
  | nil => rcases h with ⟨f, hf, _⟩; cases hf
  | cons f rest ih =>
    rcases h with ⟨g, hg, hge⟩
    rcases List.mem_cons.mp hg with rfl | hg2
    · simp only [user_questions_from, List.countP_cons]
      simp [hge]
    · have hih := ih (n + 1) ⟨g, hg2, hge⟩
      simp only [user_questions_from, List.countP_cons]
      omega

/-- C10: the post-edit consistency check counts every form field whose
name contains the substring `email` and compares that count with the
approval-chain length, so on any assembled document one of whose
user-specified fields has `email` in its name (such as the fallback
enrichment field `submitter_email`), the check reports the approver-field pairing warning even though the
document carries exactly one identity and one contact field per
approver. -/
theorem modification_check_flags_extra_email_field (analysis : EnrichedAnalysis)
    (approval_chain : List Approver) (user_answers : List (String × String))
    (h : ∃ f ∈ analysis.data_to_collect, containsEmail f.field_name = true) :
    "Form approver fields don\x27t match approval chain" ∈
      validate_modifications (assemble_specification analysis approval_chain user_answers) := by
  have hne : (((user_questions_from 1 analysis.data_to_collect ++
      approver_questions_from ((user_questions_from 1 analysis.data_to_collect).length + 1)
        approval_chain).filter (fun q => containsEmail q.field_name)).length) ≠
      approval_chain.length := by
    rw [← List.countP_eq_length_filter, List.countP_append]
    have h1 := user_questions_countP_pos 1 analysis.data_to_collect h
    have h2 := approver_questions_countP_ge
      ((user_questions_from 1 analysis.data_to_collect).length + 1) approval_chain
    omega
  simp only [validate_modifications, assemble_specification, generate_master_json,
    generate_form_schema]
  rw [if_pos hne]
  simp

/-- C10 witness: the fallback-enriched Leave Request document with a
one-approver chain carries `submitter_email`, `manager_name` and
`manager_email`, and the pairing check flags it. -/
theorem modification_check_flags_extra_email_field_witness :
    "Form approver fields don\x27t match approval chain" ∈
      validate_modifications (assemble_specification scenario_analysis [managerApprover] []) :=
  modification_check_flags_extra_email_field scenario_analysis [managerApprover] []
    (by decide)
